import Mathlib

/-!
Shallow embedding of the Monte Carlo retirement-simulation engine in
`src/services/monteCarlo.ts` (types from `src/types.ts`).

JavaScript numbers are modelled as rationals (`ℚ`), so every theorem below is a
statement about the engine's arithmetic in exact arithmetic.  The ambient
random source (`Math.random` feeding `generateAnnualReturns`) is modelled as an
explicit oracle parameter supplying one return triple per (run, year); the
ambient calendar year (`new Date().getFullYear()`) is modelled by indexing
years relative to the start.  The human-readable `actionLog` strings are
modelled by an inductive tag recording which branch of the state machine
produced the string.
-/

namespace RetirementSim

/-- `SimulationInputs` from src/types.ts.  `timeHorizon` is an integer number
of years (the UI always passes a positive integer, but the engine itself never
validates it, so we keep the full integer range). -/
structure SimulationInputs where
  initialCash : ℚ
  initialInvestments : ℚ
  annualSpend : ℚ
  timeHorizon : ℤ
  inflationRate : ℚ
  managementFee : ℚ
  customStockAllocation : ℚ
deriving DecidableEq

/-- `StrategyType` from src/types.ts. -/
inductive StrategyType where
  | BUCKET
  | CONSERVATIVE
  | AGGRESSIVE
  | CUSTOM
deriving DecidableEq

/-- The per-year correlated return triple produced by `generateAnnualReturns`
and consumed by `simulateYear` (field names as in the source). -/
structure AnnualReturn where
  stock : ℚ
  bond : ℚ
  cash : ℚ
deriving DecidableEq

/-- `SimState` from src/services/monteCarlo.ts. -/
structure SimState where
  stock : ℚ
  bond : ℚ
  cash : ℚ
  spend : ℚ
deriving DecidableEq

/-- The target-weight pair `{ stock, bond }` passed to `simulateYear`. -/
structure TargetWeights where
  stock : ℚ
  bond : ℚ
deriving DecidableEq

/-- Which branch of `simulateYear` produced the `actionLog` string (the source
builds an interpolated string; only the branch identity matters here). -/
inductive ActionTag where
  | depleted      -- "Portfolio Depleted."
  | downBuffer    -- "Market Down ... Spending from Cash Buffer."
  | downForced    -- "Market Down ... Cash Empty! Forced Stock Sell."
  | upRefill      -- "Market Up ... Refilled Cash ..."
  | upNoRefill    -- "Market Up ..."
  | rebalanced    -- "Rebalanced to X/Y."
deriving DecidableEq

/-- `YearOutcome` from src/services/monteCarlo.ts. -/
structure YearOutcome where
  nextState : SimState
  withdrawal : ℚ
  fees : ℚ
  growth : ℚ
  actionLog : ActionTag
deriving DecidableEq

/-- Sum of the three asset buckets of a state. -/
def SimState.total (s : SimState) : ℚ := s.stock + s.bond + s.cash

/-- `currStock` right after growth and fees in `simulateYear` (lines 127-140
of src/services/monteCarlo.ts): the stock bucket grows by its return, then the
management fee (`managementFee / 100`) is charged on it. -/
def postFeeStock (state : SimState) (returns : AnnualReturn)
    (inputs : SimulationInputs) : ℚ :=
  let grossStock := state.stock * (1 + returns.stock)
  grossStock - grossStock * (inputs.managementFee / 100)

/-- `currBond` right after growth and fees in `simulateYear` (lines 129-141
of the source). -/
def postFeeBond (state : SimState) (returns : AnnualReturn)
    (inputs : SimulationInputs) : ℚ :=
  let grossBond := state.bond * (1 + returns.bond)
  grossBond - grossBond * (inputs.managementFee / 100)

/-- `currCash` right after growth in `simulateYear` (line 142 of the source);
cash is fee-exempt. -/
def postFeeCash (state : SimState) (returns : AnnualReturn) : ℚ :=
  state.cash * (1 + returns.cash)

/-- `totalAvailable` of `simulateYear` (line 149 of the source). -/
def postFeeTotal (state : SimState) (returns : AnnualReturn)
    (inputs : SimulationInputs) : ℚ :=
  postFeeStock state returns inputs + postFeeBond state returns inputs +
    postFeeCash state returns

/-- The `actionLog` classification of the BUCKET branch (lines 190-197 of the
source): keyed on the sign of the stock return, the post-spend cash, and
whether a refill happened. -/
def bucketTag (rStock cashFinal refillAmount : ℚ) : ActionTag :=
  if rStock < 0 then
    (if cashFinal > 0 then .downBuffer else .downForced)
  else
    (if refillAmount > 0 then .upRefill else .upNoRefill)

/-- The BUCKET branch of `simulateYear` (lines 159-197 of the source), acting
on the post-fee bucket values.  Returns the new (stock, bond, cash) triple and
the action tag.  Note that the source transfers the refill amount from stock
to cash in full and sizes the forced sale exactly at the shortfall — no
transaction-cost friction appears anywhere in this branch. -/
def bucketStep (rStock currStock currBond currCash targetBuffer w : ℚ) :
    ℚ × ℚ × ℚ × ActionTag :=
  let refillAmount :=
    if rStock > 0 ∧ currStock > 0 ∧ currCash < targetBuffer
    then min (targetBuffer - currCash) currStock else 0
  let s1 := currStock - refillAmount
  let c1 := currCash + refillAmount
  if c1 ≥ w then
    (s1, currBond, c1 - w, bucketTag rStock (c1 - w) refillAmount)
  else
    let shortfall := w - c1
    let s2 := s1 - shortfall
    (if s2 < 0 then 0 else s2, currBond, 0, bucketTag rStock 0 refillAmount)

/-- The fixed-allocation branch of `simulateYear` (lines 199-219 of the
source): pool everything, withdraw, charge the 0.05% rebalancing drag, then
redistribute at the target weights (or deplete). -/
def fixedStep (totalAvailable w : ℚ) (tw : TargetWeights) :
    ℚ × ℚ × ℚ × ActionTag :=
  let total := totalAvailable - w
  let total := total - total * (5/10000)
  if total > 1/100 then
    (total * tw.stock, total * tw.bond, 0, .rebalanced)
  else
    (0, 0, 0, .depleted)

/-- `fees = stockFee + bondFee` of `simulateYear` (line 144 of the source). -/
def yearFees (state : SimState) (returns : AnnualReturn)
    (inputs : SimulationInputs) : ℚ :=
  state.stock * (1 + returns.stock) * (inputs.managementFee / 100) +
    state.bond * (1 + returns.bond) * (inputs.managementFee / 100)

/-- `growth` of `simulateYear` (line 132 of the source): total pre-fee market
gain across the three buckets. -/
def yearGrowth (state : SimState) (returns : AnnualReturn) : ℚ :=
  (state.stock * (1 + returns.stock) - state.stock) +
    (state.bond * (1 + returns.bond) - state.bond) +
    (state.cash * (1 + returns.cash) - state.cash)

/-- `simulateYear` from src/services/monteCarlo.ts (lines 116-235). -/
def simulateYear (state : SimState) (returns : AnnualReturn)
    (inputs : SimulationInputs) (strategy : StrategyType)
    (targetWeights : TargetWeights) : YearOutcome :=
  let totalAvailable := postFeeTotal state returns inputs
  let actualWithdrawal := min state.spend totalAvailable
  if totalAvailable ≤ 1/100 then
    { nextState := ⟨0, 0, 0, state.spend⟩
      withdrawal := actualWithdrawal
      fees := yearFees state returns inputs
      growth := yearGrowth state returns
      actionLog := .depleted }
  else match strategy with
  | .BUCKET =>
    let r := bucketStep returns.stock (postFeeStock state returns inputs)
               (postFeeBond state returns inputs) (postFeeCash state returns)
               (2 * state.spend) actualWithdrawal
    { nextState := ⟨r.1, r.2.1, r.2.2.1, state.spend⟩
      withdrawal := actualWithdrawal
      fees := yearFees state returns inputs
      growth := yearGrowth state returns
      actionLog := r.2.2.2 }
  | _ =>
    let r := fixedStep totalAvailable actualWithdrawal targetWeights
    { nextState := ⟨r.1, r.2.1, r.2.2.1, state.spend⟩
      withdrawal := actualWithdrawal
      fees := yearFees state returns inputs
      growth := yearGrowth state returns
      actionLog := r.2.2.2 }

/-- The strategy target weights computed identically in `generateAuditLog`
(lines 250-254) and `runSimulation` (lines 374-378): CONSERVATIVE 60/40,
AGGRESSIVE 70/30, CUSTOM from `customStockAllocation`, BUCKET left at 0/0. -/
def computeWeights (strategy : StrategyType) (customStockAllocation : ℚ) :
    TargetWeights :=
  match strategy with
  | .CONSERVATIVE => ⟨6/10, 4/10⟩
  | .AGGRESSIVE => ⟨7/10, 3/10⟩
  | .CUSTOM => ⟨customStockAllocation / 100, 1 - customStockAllocation / 100⟩
  | .BUCKET => ⟨0, 0⟩

/-- The initial portfolio state seeded identically in `generateAuditLog`
(lines 256-269) and `runSimulation` (lines 398-412): BUCKET caps cash at two
years of spending and puts the rest in stock; the fixed-allocation strategies
split the total at the target weights with zero cash. -/
def initialState (inputs : SimulationInputs) (strategy : StrategyType) :
    SimState :=
  let totalStartPortfolio := inputs.initialCash + inputs.initialInvestments
  match strategy with
  | .BUCKET =>
    let cash := min totalStartPortfolio (2 * inputs.annualSpend)
    ⟨totalStartPortfolio - cash, 0, cash, inputs.annualSpend⟩
  | _ =>
    let tw := computeWeights strategy inputs.customStockAllocation
    ⟨totalStartPortfolio * tw.stock, totalStartPortfolio * tw.bond, 0,
      inputs.annualSpend⟩

/-- `AuditRow` from src/types.ts.  The source stores the calendar year
(`new Date().getFullYear() + year`); the ambient clock is modelled by the
relative index `yearIndex` (starting at 1 as in the source loop). -/
structure AuditRow where
  yearIndex : ℕ
  startCash : ℚ
  startStock : ℚ
  startBond : ℚ
  stockReturn : ℚ
  bondReturn : ℚ
  cashReturn : ℚ
  growthAmount : ℚ
  feesAmount : ℚ
  action : ActionTag
  withdrawal : ℚ
  endTotal : ℚ
deriving DecidableEq

/-- The year loop of `generateAuditLog` (lines 271-297 of the source),
generalized over the starting state and year index.  The source iterates
`year = 1 .. timeHorizon` over a returns array of exactly `timeHorizon`
entries (as stored by the driver); this is modelled as iteration over the
returns list. -/
def auditRows (inputs : SimulationInputs) (strategy : StrategyType)
    (tw : TargetWeights) : ℕ → SimState → List AnnualReturn → List AuditRow
  | _, _, [] => []
  | yr, state, r :: rest =>
    let outcome := simulateYear state r inputs strategy tw
    { yearIndex := yr
      startCash := state.cash
      startStock := state.stock
      startBond := state.bond
      stockReturn := r.stock
      bondReturn := r.bond
      cashReturn := r.cash
      growthAmount := outcome.growth
      feesAmount := outcome.fees
      action := outcome.actionLog
      withdrawal := outcome.withdrawal
      endTotal := outcome.nextState.stock + outcome.nextState.bond +
        outcome.nextState.cash } ::
    auditRows inputs strategy tw (yr + 1) outcome.nextState rest

/-- `generateAuditLog` from src/services/monteCarlo.ts (lines 241-298):
replay a stored returns sequence through `simulateYear` from the request's
initial allocation. -/
def generateAuditLog (inputs : SimulationInputs) (strategy : StrategyType)
    (annualReturns : List AnnualReturn) : List AuditRow :=
  auditRows inputs strategy (computeWeights strategy inputs.customStockAllocation)
    1 (initialState inputs strategy) annualReturns

/-- The per-run year loop of `runSimulation` (lines 420-443 of the source),
restricted to the recorded trajectory: each year the state advances through
`simulateYear` and the total is recorded, clamped below at 0
(`if (totalPortfolio < 0) totalPortfolio = 0`). -/
def simTrajectory (inputs : SimulationInputs) (strategy : StrategyType)
    (tw : TargetWeights) : SimState → List AnnualReturn → List ℚ
  | _, [] => []
  | state, r :: rest =>
    let outcome := simulateYear state r inputs strategy tw
    let t := outcome.nextState.stock + outcome.nextState.bond +
      outcome.nextState.cash
    (if t < 0 then 0 else t) ::
      simTrajectory inputs strategy tw outcome.nextState rest

/-- Iterated state transition: the state reached after consuming a list of
annual returns (the driver's `state = outcome.nextState` loop). -/
def simulateYears (inputs : SimulationInputs) (strategy : StrategyType)
    (tw : TargetWeights) : SimState → List AnnualReturn → SimState
  | state, [] => state
  | state, r :: rest =>
    simulateYears inputs strategy tw
      (simulateYear state r inputs strategy tw).nextState rest

/-- `NUM_SIMULATIONS` from the source (line 21). -/
def NUM_SIMULATIONS : ℕ := 10000

/-- `SimulationRun` from the source (lines 93-99); `portfolioReturns` (used
only for the volatility statistic, which no claim touches) is omitted. -/
structure SimulationRun where
  id : ℕ
  finalBalance : ℚ
  trajectory : List ℚ
  annualReturns : List AnnualReturn
deriving DecidableEq

instance : Inhabited SimulationRun := ⟨⟨0, 0, [], []⟩⟩

/-- Result of `getTerminalStats` (lines 300-307 of the source). -/
structure TerminalStats where
  depleted : Bool
  depletionYear : ℤ
  finalValue : ℚ
deriving DecidableEq

/-- `getTerminalStats` from the source: first index at which the trajectory is
≤ 0.01 (JS `findIndex`, −1 when absent), and the last trajectory value
(`trajectory[length-1]`; the undefined-on-empty JS value is modelled as 0 —
every trajectory this is applied to is nonempty for a positive horizon). -/
def getTerminalStats (trajectory : List ℚ) : TerminalStats :=
  let idx := trajectory.findIdx fun v => decide (v ≤ 1/100)
  { depleted := decide (idx < trajectory.length)
    depletionYear := if idx < trajectory.length then (idx : ℤ) else -1
    finalValue := trajectory.getLastD 0 }

/-- The tolerance-widening candidate filter of `findBestFitRun`
(lines 324-336 of the source): the first tolerance whose filtered set has more
than 5 runs wins; if none does, all runs remain candidates. -/
def toleranceFilter (allRuns : List SimulationRun) (finalValue : ℚ) :
    List ℚ → List SimulationRun
  | [] => allRuns
  | tol :: rest =>
    let filtered := allRuns.filter fun r =>
      decide (|r.trajectory.getLastD 0 - finalValue| ≤ finalValue * tol)
    if filtered.length > 5 then filtered
    else toleranceFilter allRuns finalValue rest

/-- The candidate set built by `findBestFitRun` (lines 315-337 of the source):
depletion-year matching when the target curve depletes, tolerance widening
otherwise, falling back to all runs when empty. -/
def candidatesOf (allRuns : List SimulationRun) (targetCurve : List ℚ) :
    List SimulationRun :=
  let targetStats := getTerminalStats targetCurve
  let candidates :=
    if targetStats.depleted then
      allRuns.filter fun r =>
        let rStats := getTerminalStats r.trajectory
        rStats.depleted &&
          decide (|rStats.depletionYear - targetStats.depletionYear| ≤ 1)
    else
      toleranceFilter allRuns targetStats.finalValue
        [1/100, 2/100, 5/100, 10/100, 20/100]
  if candidates.isEmpty then allRuns else candidates

/-- The per-run score of `findBestFitRun`'s selection loop (lines 342-355 of
the source): sum over target-curve indices that fall inside the run's
trajectory of the squared deviation, plus a 10¹² penalty per index where the
optional ordering comparison fails (`comparisonCurve[i]` past the end, which
would be undefined in JS, is modelled as 0; the source always passes curves of
equal length). -/
def runScore : List ℚ → List ℚ → Option ((ℚ → ℚ → Bool) × List ℚ) → ℚ
  | _, [], _ => 0
  | [], _ :: _, _ => 0
  | v :: vs, t :: ts, none => (v - t) * (v - t) + runScore vs ts none
  | v :: vs, t :: ts, some (f, cc) =>
      (v - t) * (v - t) + (if f v (cc.getD 0 0) then 0 else 10 ^ 12) +
        runScore vs ts (some (f, cc.tail))

/-- Score of one candidate run against the target curve. -/
def runScoreOf (run : SimulationRun) (targetCurve : List ℚ)
    (cmp : Option ((ℚ → ℚ → Bool) × List ℚ)) : ℚ :=
  runScore run.trajectory targetCurve cmp

/-- The strict-minimum selection loop of `findBestFitRun` (lines 339-361 of
the source).  `none` models the initial `minError = Number.MAX_VALUE`, which
every computed score beats. -/
def selectBestAux (targetCurve : List ℚ)
    (cmp : Option ((ℚ → ℚ → Bool) × List ℚ)) :
    SimulationRun → Option ℚ → List SimulationRun → SimulationRun
  | best, _, [] => best
  | _, none, r :: rest =>
    selectBestAux targetCurve cmp r (some (runScoreOf r targetCurve cmp)) rest
  | best, some m, r :: rest =>
    let s := runScoreOf r targetCurve cmp
    if s < m then selectBestAux targetCurve cmp r (some s) rest
    else selectBestAux targetCurve cmp best (some m) rest

/-- `findBestFitRun` from src/services/monteCarlo.ts (lines 309-362).  On an
empty run list the source would return `undefined`; modelled by the default
run (the driver always passes `NUM_SIMULATIONS` runs). -/
def findBestFitRun (allRuns : List SimulationRun) (targetCurve : List ℚ)
    (cmp : Option ((ℚ → ℚ → Bool) × List ℚ)) : SimulationRun :=
  let candidates := candidatesOf allRuns targetCurve
  match candidates with
  | [] => default
  | c :: _ => selectBestAux targetCurve cmp c none candidates

/-- Insertion of one value into an ascending-sorted list. -/
def insertSorted (x : ℚ) : List ℚ → List ℚ
  | [] => [x]
  | y :: ys => if x ≤ y then x :: y :: ys else y :: insertSorted x ys

/-- Ascending numeric sort, modelling `yearValues.sort((a, b) => a - b)`.
(The sorted permutation of a multiset of rationals is unique, so any correct
sort models the JS sort exactly.) -/
def sortAsc (l : List ℚ) : List ℚ := l.foldr insertSorted []

/-- `Math.floor(NUM_SIMULATIONS * p)`, the percentile index of the source
(lines 475-477). -/
def percentileIndex (p : ℚ) : ℕ := (⌊(NUM_SIMULATIONS : ℚ) * p⌋).toNat

/-- `YearResult` from src/types.ts.  The source stores calendar years
(`currentYear + index + 1`, and `currentYear` for the prepended row); the
ambient clock is modelled by relative indices (0 for the synthetic start
row). -/
structure YearResult where
  year : ℤ
  average : ℚ
  belowAverage : ℚ
  downturn : ℚ
deriving DecidableEq

/-- The per-run trajectories of the Monte Carlo loop of `runSimulation`
(lines 397-463 of the source), with the random source explicit: `oracle sim
year` is the return triple that `generateAnnualReturns` produced for that run
and year.  Each run consumes exactly `timeHorizon` triples. -/
def runTrajectories (inputs : SimulationInputs) (strategy : StrategyType)
    (oracle : ℕ → ℕ → AnnualReturn) : List (List ℚ) :=
  (List.range NUM_SIMULATIONS).map fun sim =>
    simTrajectory inputs strategy
      (computeWeights strategy inputs.customStockAllocation)
      (initialState inputs strategy)
      ((List.range inputs.timeHorizon.toNat).map fun year => oracle sim year)

/-- One aggregated chart row (lines 472-489 of the source): the year's column
of per-run totals is sorted ascending and read at the 10th/25th/50th
percentile indices. -/
def chartRow (runs : List (List ℚ)) (year : ℕ) : YearResult :=
  let sorted := sortAsc (runs.map fun t => t.getD year 0)
  { year := (year : ℤ) + 1
    downturn := sorted.getD (percentileIndex (10/100)) 0
    belowAverage := sorted.getD (percentileIndex (25/100)) 0
    average := sorted.getD (percentileIndex (50/100)) 0 }

/-- The percentile-curve output (`chartData`) of `runSimulation`
(lines 472-496 of the source): one aggregated row per simulated year, with the
synthetic year-0 row equal to the starting total on all three bands prepended
(`chartData.unshift`). -/
def simChartData (inputs : SimulationInputs) (strategy : StrategyType)
    (oracle : ℕ → ℕ → AnnualReturn) : List YearResult :=
  let totalStartPortfolio := inputs.initialCash + inputs.initialInvestments
  let runs := runTrajectories inputs strategy oracle
  { year := 0, average := totalStartPortfolio
    belowAverage := totalStartPortfolio, downturn := totalStartPortfolio } ::
    (List.range inputs.timeHorizon.toNat).map (chartRow runs)

/-- The engine's aggregate output, restricted to the fields the claims touch.
The audit-log fields of the source's `SimulationResult` are covered by
`generateAuditLog` and `findBestFitRun` above; median/volatility/allocation
are claimed by no claim. -/
structure SimulationResultModel where
  data : List YearResult
  successRate : ℚ
deriving DecidableEq

/-- The successful-path computation of `runSimulation` (reached once the
trajectory buffer allocation at line 393 has succeeded, i.e. for
`timeHorizon ≥ 0`), restricted to the claimed output fields.  A run counts as
a failure when its final (unclamped) balance is ≤ 1 (line 446). -/
def runSimulationBody (inputs : SimulationInputs) (strategy : StrategyType)
    (oracle : ℕ → ℕ → AnnualReturn) : SimulationResultModel :=
  let tw := computeWeights strategy inputs.customStockAllocation
  let failures := (List.range NUM_SIMULATIONS).countP fun sim =>
    decide ((simulateYears inputs strategy tw (initialState inputs strategy)
      ((List.range inputs.timeHorizon.toNat).map fun year =>
        oracle sim year)).total ≤ 1)
  { data := simChartData inputs strategy oracle
    successRate := (((NUM_SIMULATIONS : ℚ) - failures) / NUM_SIMULATIONS) * 100 }

/-- `runSimulation` from src/services/monteCarlo.ts (lines 366-534), with the
random source explicit.  The source performs no input validation of any kind;
the only way it fails to produce a result is the uncaught
`RangeError: Invalid array length` thrown by `Array(timeHorizon)` at the
trajectory-buffer allocation (line 393) when `timeHorizon` is negative —
modelled as `none`.  Every request with `timeHorizon ≥ 0`, however invalid
under the spec's rules, flows straight into the Monte Carlo loop and produces
a result. -/
def runSimulationModel (inputs : SimulationInputs) (strategy : StrategyType)
    (oracle : ℕ → ℕ → AnnualReturn) : Option SimulationResultModel :=
  if inputs.timeHorizon < 0 then none
  else some (runSimulationBody inputs strategy oracle)

/-- The `term = 1 + arithMean` of `getLogParams` inside
`generateAnnualReturns` (line 73 of the source).  No clamping is applied. -/
def logParamTerm (arithMean : ℚ) : ℚ := 1 + arithMean

/-- The radicand `arithStd² + term²` of `phi` in `getLogParams` (line 74 of
the source); the derived parameters are `mu_log = ln(term²/√phiSq)` and
`sigma_log = √(ln(phiSq/term²))`. -/
def logParamPhiSq (arithMean arithStd : ℚ) : ℚ :=
  arithStd * arithStd + logParamTerm arithMean * logParamTerm arithMean

/-! ### Spec-side definitions

The following definitions transcribe the SPEC's words (not the source); they
exist only to be compared with the source-derived definitions above. -/

/-- Modelled from the spec: "term = max(1+mean, ε) (ε≈1e-4 ...)" — the clamped
log-normal term the spec claims the Return Generator uses. -/
def logParamTermClaimed (arithMean : ℚ) : ℚ := max (1 + arithMean) (1/10000)

/-- Modelled from the spec: the BUCKET branch as the spec describes it, with a
transaction-cost friction `frictionRate` subtracted from the refill-sale
proceeds and the forced sale grossed up as `shortfall / (1 − frictionRate)`
(stock clamped to zero if oversold).  Returns the new (stock, bond, cash). -/
def bucketStepClaimed (frictionRate rStock currStock currBond currCash
    targetBuffer w : ℚ) : ℚ × ℚ × ℚ :=
  let sale :=
    if rStock > 0 ∧ currStock > 0 ∧ currCash < targetBuffer
    then min (targetBuffer - currCash) currStock else 0
  let s1 := currStock - sale
  let c1 := currCash + sale * (1 - frictionRate)
  if c1 ≥ w then
    (s1, currBond, c1 - w)
  else
    let grossSellNeeded := (w - c1) / (1 - frictionRate)
    let s2 := s1 - grossSellNeeded
    (if s2 < 0 then 0 else s2, currBond, 0)

/-- Insertion of a run into a list sorted ascending by final balance. -/
def insertRunSorted (x : SimulationRun) :
    List SimulationRun → List SimulationRun
  | [] => [x]
  | y :: ys =>
    if x.finalBalance ≤ y.finalBalance then x :: y :: ys
    else y :: insertRunSorted x ys

/-- All runs sorted by final balance ascending (spec §4.5). -/
def sortRunsByFinal (l : List SimulationRun) : List SimulationRun :=
  l.foldr insertRunSorted []

/-- Modelled from the spec: the Representative-Run Selector the spec
describes — "Sort all runs by final balance ascending … run at index
floor(N×p)". -/
def representativeRunClaimed (runs : List SimulationRun) (p : ℚ) :
    SimulationRun :=
  (sortRunsByFinal runs).getD (⌊(runs.length : ℚ) * p⌋).toNat default

/-- Modelled from the spec: the invalid-input predicate of §7 — a request is
valid unless `timeHorizon ≤ 0`, a cash/investment/spend amount is negative, or
`customStockAllocation` lies outside [0,100]. -/
def claimValidInputs (i : SimulationInputs) : Bool :=
  decide (0 < i.timeHorizon) && decide (0 ≤ i.initialCash) &&
  decide (0 ≤ i.initialInvestments) && decide (0 ≤ i.annualSpend) &&
  decide (0 ≤ i.customStockAllocation) && decide (i.customStockAllocation ≤ 100)

/-! ### Concrete inputs used by counterexamples and witnesses -/

/-- A request with no management fee and an annual spend of 10 (only
`managementFee` and, through the state, `annualSpend` feed `simulateYear`). -/
def feeFreeInputs : SimulationInputs := ⟨0, 0, 10, 1, 0, 0, 50⟩

/-- A request with a 200% management fee (the engine never validates the fee). -/
def fee200Inputs : SimulationInputs := ⟨0, 0, 0, 1, 0, 200, 50⟩

/-- Scenario A of the spec: initialCash 0, initialInvestments 100000,
annualSpend 0, 1-year horizon, zero inflation and fee. -/
def scenarioAInputs : SimulationInputs := ⟨0, 100000, 0, 1, 0, 0, 50⟩

/-- A request that the spec's invalid-input rule would reject
(`timeHorizon = 0`), all other fields benign. -/
def horizonZeroInputs : SimulationInputs := ⟨0, 100000, 0, 0, 0, 0, 50⟩

/-- A deterministic stand-in for the random source: every draw returns the
zero triple. -/
def zeroOracle : ℕ → ℕ → AnnualReturn := fun _ _ => ⟨0, 0, 0⟩

/-- Ten concrete one-year runs with final balances 10, 20, …, 100. -/
def runs10 : List SimulationRun :=
  [⟨0, 10, [10], []⟩, ⟨1, 20, [20], []⟩, ⟨2, 30, [30], []⟩,
   ⟨3, 40, [40], []⟩, ⟨4, 50, [50], []⟩, ⟨5, 60, [60], []⟩,
   ⟨6, 70, [70], []⟩, ⟨7, 80, [80], []⟩, ⟨8, 90, [90], []⟩,
   ⟨9, 100, [100], []⟩]

/-! ## Helper lemmas -/

/-- The BUCKET branch never touches the bond bucket. -/
lemma bucketStep_bond (a cs cb cc tb w : ℚ) :
    (bucketStep a cs cb cc tb w).2.1 = cb := by
  simp only [bucketStep]
  split <;> split <;> rfl

/-- With no bond exposure, the BUCKET branch conserves value exactly: the end
total is the post-fee total minus the withdrawal (the refill moves money
between stock and cash without loss, and the forced sale removes exactly the
shortfall). -/
lemma bucketStep_total (a cs cb cc tb w : ℚ) (hcb : cb = 0)
    (hw : w ≤ cs + cc) :
    (bucketStep a cs cb cc tb w).1 + (bucketStep a cs cb cc tb w).2.1 +
      (bucketStep a cs cb cc tb w).2.2.1 = cs + cc - w := by
  subst hcb
  simp only [bucketStep]
  set refill := (if a > 0 ∧ cs > 0 ∧ cc < tb then min (tb - cc) cs else 0)
    with hr
  by_cases h1 : cc + refill ≥ w
  · rw [if_pos h1]
    ring
  · rw [if_neg h1]
    rw [if_neg (by push_neg; linarith)]
    ring

/-- The BUCKET branch maps nonnegative buckets to nonnegative buckets. -/
lemma bucketStep_nonneg (a cs cb cc tb w : ℚ) (h1 : 0 ≤ cs) (h2 : 0 ≤ cb)
    (_h3 : 0 ≤ cc) :
    0 ≤ (bucketStep a cs cb cc tb w).1 ∧
      0 ≤ (bucketStep a cs cb cc tb w).2.1 ∧
      0 ≤ (bucketStep a cs cb cc tb w).2.2.1 := by
  simp only [bucketStep]
  set refill := (if a > 0 ∧ cs > 0 ∧ cc < tb then min (tb - cc) cs else 0)
    with hr
  have hb : 0 ≤ refill ∧ refill ≤ cs := by
    rw [hr]
    by_cases hc : a > 0 ∧ cs > 0 ∧ cc < tb
    · rw [if_pos hc]
      exact ⟨le_min (by linarith [hc.2.2]) h1, min_le_right _ _⟩
    · rw [if_neg hc]
      exact ⟨le_refl 0, h1⟩
  by_cases hcw : cc + refill ≥ w
  · rw [if_pos hcw]
    refine ⟨?_, ?_, ?_⟩ <;> dsimp only
    · linarith [hb.2]
    · exact h2
    · linarith
  · rw [if_neg hcw]
    refine ⟨?_, ?_, ?_⟩ <;> dsimp only
    · split
      · exact le_refl 0
      · next hs2 => linarith [not_lt.mp hs2]
    · exact h2
    · exact le_refl 0

/-- The fixed-allocation branch produces a nonnegative total when the target
weights sum to one. -/
lemma fixedStep_total_nonneg (ta w : ℚ) (tw : TargetWeights)
    (hsum : tw.stock + tw.bond = 1) :
    0 ≤ (fixedStep ta w tw).1 + (fixedStep ta w tw).2.1 +
      (fixedStep ta w tw).2.2.1 := by
  simp only [fixedStep]
  split
  · next h =>
    have e : (ta - w - (ta - w) * (5/10000)) * tw.stock +
        (ta - w - (ta - w) * (5/10000)) * tw.bond + 0 =
        (ta - w - (ta - w) * (5/10000)) * (tw.stock + tw.bond) := by ring
    rw [e, hsum, mul_one]
    linarith
  · norm_num

/-- The fixed-allocation branch maps into nonnegative buckets when both target
weights are nonnegative. -/
lemma fixedStep_nonneg (ta w : ℚ) (tw : TargetWeights) (hs : 0 ≤ tw.stock)
    (hb : 0 ≤ tw.bond) :
    0 ≤ (fixedStep ta w tw).1 ∧ 0 ≤ (fixedStep ta w tw).2.1 ∧
      0 ≤ (fixedStep ta w tw).2.2.1 := by
  simp only [fixedStep]
  split
  · next h =>
    exact ⟨mul_nonneg (by linarith) hs, mul_nonneg (by linarith) hb,
      le_refl 0⟩
  · norm_num

/-- For the three fixed-allocation strategies, the computed target weights sum
to one (CUSTOM sums to one for every `customStockAllocation`). -/
lemma computeWeights_sum (strategy : StrategyType) (c : ℚ)
    (h : strategy ≠ .BUCKET) :
    (computeWeights strategy c).stock + (computeWeights strategy c).bond = 1 := by
  cases strategy with
  | BUCKET => exact absurd rfl h
  | CONSERVATIVE => norm_num [computeWeights]
  | AGGRESSIVE => norm_num [computeWeights]
  | CUSTOM =>
    simp only [computeWeights]
    ring

/-- The BUCKET strategy's initial allocation has no bond exposure. -/
lemma initialState_bond_zero (inputs : SimulationInputs)
    (strategy : StrategyType) (h : strategy = .BUCKET) :
    (initialState inputs strategy).bond = 0 := by
  subst h
  simp [initialState]

/-- With a bond-free state under BUCKET, the post-fee bond bucket is zero. -/
lemma postFeeBond_zero (state : SimState) (r : AnnualReturn)
    (inputs : SimulationInputs) (hb : state.bond = 0) :
    postFeeBond state r inputs = 0 := by
  simp [postFeeBond, hb]

/-- Every `simulateYear` step keeps the end total nonnegative and, under
BUCKET, keeps the bond bucket at zero — for arbitrary inputs and returns,
provided the fixed-allocation weights sum to one (which `computeWeights`
guarantees) and the BUCKET state starts bond-free. -/
lemma simulateYear_step_invariant (state : SimState) (r : AnnualReturn)
    (inputs : SimulationInputs) (strategy : StrategyType) (tw : TargetWeights)
    (hw : strategy ≠ .BUCKET → tw.stock + tw.bond = 1)
    (hb : strategy = .BUCKET → state.bond = 0) :
    0 ≤ (simulateYear state r inputs strategy tw).nextState.stock +
        (simulateYear state r inputs strategy tw).nextState.bond +
        (simulateYear state r inputs strategy tw).nextState.cash ∧
      (strategy = .BUCKET →
        (simulateYear state r inputs strategy tw).nextState.bond = 0) := by
  cases strategy with
  | BUCKET =>
    have hpb : postFeeBond state r inputs = 0 := postFeeBond_zero _ _ _ (hb rfl)
    have hta : postFeeTotal state r inputs =
        postFeeStock state r inputs + postFeeCash state r := by
      rw [postFeeTotal, hpb]
      ring
    have hwd : min state.spend (postFeeTotal state r inputs) ≤
        postFeeStock state r inputs + postFeeCash state r :=
      hta ▸ min_le_right _ _
    simp only [simulateYear.eq_def]
    split
    · simp
    · refine ⟨?_, fun _ => ?_⟩ <;> dsimp only
      · rw [bucketStep_total _ _ _ _ _ _ hpb hwd]
        linarith [hwd]
      · rw [bucketStep_bond]
        exact hpb
  | CONSERVATIVE =>
    have hsum := hw (fun hc => StrategyType.noConfusion hc)
    simp only [simulateYear.eq_def]
    split
    · simp
    · exact ⟨fixedStep_total_nonneg _ _ _ hsum,
        fun hc => StrategyType.noConfusion hc⟩
  | AGGRESSIVE =>
    have hsum := hw (fun hc => StrategyType.noConfusion hc)
    simp only [simulateYear.eq_def]
    split
    · simp
    · exact ⟨fixedStep_total_nonneg _ _ _ hsum,
        fun hc => StrategyType.noConfusion hc⟩
  | CUSTOM =>
    have hsum := hw (fun hc => StrategyType.noConfusion hc)
    simp only [simulateYear.eq_def]
    split
    · simp
    · exact ⟨fixedStep_total_nonneg _ _ _ hsum,
        fun hc => StrategyType.noConfusion hc⟩

/-- The driver's recorded trajectory and the audit replay's `endTotal` column
agree from any start state satisfying the step invariant: the driver's
`if (totalPortfolio < 0) totalPortfolio = 0` clamp never fires. -/
lemma simTrajectory_eq_audit (inputs : SimulationInputs)
    (strategy : StrategyType) (tw : TargetWeights)
    (hw : strategy ≠ .BUCKET → tw.stock + tw.bond = 1) :
    ∀ (rs : List AnnualReturn) (state : SimState) (yr : ℕ),
      (strategy = .BUCKET → state.bond = 0) →
      simTrajectory inputs strategy tw state rs =
        (auditRows inputs strategy tw yr state rs).map AuditRow.endTotal := by
  intro rs
  induction rs with
  | nil => intro state yr _; rfl
  | cons r rest ih =>
    intro state yr hbond
    obtain ⟨h1, h2⟩ := simulateYear_step_invariant state r inputs strategy tw
      hw hbond
    simp only [simTrajectory, auditRows, List.map_cons]
    rw [if_neg (not_lt.mpr h1)]
    congr 1
    exact ih (simulateYear state r inputs strategy tw).nextState (yr + 1) h2

/-- The all-zero portfolio is a fixed point of `simulateYear`: the post-fee
total is 0, which triggers the depletion branch. -/
lemma zero_state_step (spend : ℚ) (r : AnnualReturn)
    (inputs : SimulationInputs) (strategy : StrategyType)
    (tw : TargetWeights) :
    (simulateYear ⟨0, 0, 0, spend⟩ r inputs strategy tw).nextState =
        ⟨0, 0, 0, spend⟩ ∧
      (simulateYear ⟨0, 0, 0, spend⟩ r inputs strategy tw).withdrawal =
        min spend 0 := by
  have hta : postFeeTotal ⟨0, 0, 0, spend⟩ r inputs = 0 := by
    simp [postFeeTotal, postFeeStock, postFeeBond, postFeeCash]
  simp only [simulateYear.eq_def, hta]
  rw [if_pos (by norm_num)]
  exact ⟨rfl, rfl⟩

/-- Iterating `simulateYear` from the all-zero state stays at the all-zero
state for every returns sequence. -/
lemma simulateYears_zero (spend : ℚ) (inputs : SimulationInputs)
    (strategy : StrategyType) (tw : TargetWeights) :
    ∀ rs : List AnnualReturn,
      simulateYears inputs strategy tw ⟨0, 0, 0, spend⟩ rs =
        ⟨0, 0, 0, spend⟩ := by
  intro rs
  induction rs with
  | nil => rfl
  | cons r rest ih =>
    simp only [simulateYears]
    rw [(zero_state_step spend r inputs strategy tw).1]
    exact ih

/-- The percentile-curve output of the successful path always has one row per
simulated year plus the prepended start row, for every request (valid or
not). -/
lemma runSimulationBody_data_length (inputs : SimulationInputs)
    (strategy : StrategyType) (oracle : ℕ → ℕ → AnnualReturn) :
    (runSimulationBody inputs strategy oracle).data.length =
      inputs.timeHorizon.toNat + 1 := by
  simp [runSimulationBody, simChartData]

/-- `runSimulationModel` produces a result exactly when the trajectory-buffer
allocation succeeds, i.e. for nonnegative horizons. -/
lemma runSimulationModel_eq_some (inputs : SimulationInputs)
    (strategy : StrategyType) (oracle : ℕ → ℕ → AnnualReturn)
    (h : 0 ≤ inputs.timeHorizon) :
    runSimulationModel inputs strategy oracle =
      some (runSimulationBody inputs strategy oracle) := by
  simp only [runSimulationModel]
  rw [if_neg (not_lt.mpr h)]

/-- The strict-minimum selection loop returns a member of `best :: rest`
whose score is at most the running minimum and at most every score in the
remainder (ties resolved to the earliest candidate). -/
lemma selectBestAux_mem_min (t : List ℚ)
    (cmp : Option ((ℚ → ℚ → Bool) × List ℚ)) :
    ∀ (rest : List SimulationRun) (best : SimulationRun) (m : ℚ),
      m = runScoreOf best t cmp →
      selectBestAux t cmp best (some m) rest ∈ best :: rest ∧
        runScoreOf (selectBestAux t cmp best (some m) rest) t cmp ≤ m ∧
        ∀ r ∈ rest,
          runScoreOf (selectBestAux t cmp best (some m) rest) t cmp ≤
            runScoreOf r t cmp := by
  intro rest
  induction rest with
  | nil =>
    intro best m hm
    refine ⟨List.mem_cons_self _ _, le_of_eq ?_, ?_⟩
    · simp only [selectBestAux]
      exact hm.symm
    · intro r hr
      cases hr
  | cons r rest ih =>
    intro best m hm
    simp only [selectBestAux]
    by_cases hlt : runScoreOf r t cmp < m
    · rw [if_pos hlt]
      obtain ⟨m1, m2, m3⟩ := ih r (runScoreOf r t cmp) rfl
      refine ⟨List.mem_cons_of_mem best m1, le_trans m2 hlt.le, ?_⟩
      intro x hx
      rcases List.mem_cons.mp hx with hx' | hx'
      · rw [hx']
        exact m2
      · exact m3 x hx'
    · rw [if_neg hlt]
      obtain ⟨m1, m2, m3⟩ := ih best m hm
      refine ⟨?_, m2, ?_⟩
      · rcases List.mem_cons.mp m1 with h | h
        · rw [h]
          exact List.mem_cons_self _ _
        · exact List.mem_cons_of_mem _ (List.mem_cons_of_mem _ h)
      · intro x hx
        rcases List.mem_cons.mp hx with hx' | hx'
        · rw [hx']
          exact le_trans m2 (not_lt.mp hlt)
        · exact m3 x hx'

/-- The tolerance-widening filter only ever returns runs from the input
list. -/
lemma toleranceFilter_subset (allRuns : List SimulationRun) (fv : ℚ) :
    ∀ (tols : List ℚ), ∀ x ∈ toleranceFilter allRuns fv tols, x ∈ allRuns := by
  intro tols
  induction tols with
  | nil =>
    intro x hx
    simpa [toleranceFilter] using hx
  | cons tol rest ih =>
    intro x hx
    simp only [toleranceFilter] at hx
    split at hx
    · exact (List.mem_filter.mp hx).1
    · exact ih x hx

/-- The candidate set of `findBestFitRun` is always a subset of the run
list. -/
lemma candidatesOf_subset (allRuns : List SimulationRun) (t : List ℚ) :
    ∀ x ∈ candidatesOf allRuns t, x ∈ allRuns := by
  intro x hx
  simp only [candidatesOf] at hx
  split at hx
  · split at hx
    · exact hx
    · exact (List.mem_filter.mp hx).1
  · split at hx
    · exact hx
    · exact toleranceFilter_subset allRuns _ _ x hx

/-- The candidate set of `findBestFitRun` is nonempty whenever the run list
is (the source's `if (candidates.length === 0) candidates = allRuns`
fallback). -/
lemma candidatesOf_ne_nil (allRuns : List SimulationRun) (t : List ℚ)
    (h : allRuns ≠ []) : candidatesOf allRuns t ≠ [] := by
  simp only [candidatesOf]
  split
  · split
    · exact h
    · next hne =>
      intro hc
      exact hne (by rw [hc]; rfl)
  · split
    · exact h
    · next hne =>
      intro hc
      exact hne (by rw [hc]; rfl)

/-! ## Claim theorems -/

/-- Claim C1 (counterexample): the BUCKET branch of `simulateYear` applies no
transaction-cost friction.  At stock 100, cash 0, spend 10 and a +10% stock
return, the source refills the buffer by 20 and withdraws 10, leaving cash
exactly 10; the spec's bucket branch with its example 0.05% friction would
leave cash 19.99 − 10 = 9.99 instead. -/
theorem bucket_friction_absent_cex :
    (simulateYear ⟨100, 0, 0, 10⟩ ⟨1/10, 0, 0⟩ feeFreeInputs .BUCKET
        ⟨0, 0⟩).nextState = ⟨90, 0, 10, 10⟩ ∧
      bucketStepClaimed (1/2000) (1/10) 110 0 0 20 10 = (90, 0, 999/100) ∧
      (10 : ℚ) ≠ 999/100 := by
  refine ⟨?_, ?_, by norm_num⟩
  · rw [simulateYear.eq_def]
    norm_num [postFeeTotal, postFeeStock, postFeeBond, postFeeCash,
      feeFreeInputs, bucketStep, bucketTag, min_def]
  · norm_num [bucketStepClaimed, min_def]

/-- Claim C1 (amended): the BUCKET branch of Year Transition applies no
friction at all — for every bond-free non-depleted state the end total equals
`totalAvailable − withdrawal` exactly: the buffer refill credits cash with the
full amount sold and the forced sale removes exactly the shortfall (the
zero-clamp never loses money when the state is bond-free). -/
theorem bucket_no_friction_conservation (state : SimState) (r : AnnualReturn)
    (inputs : SimulationInputs) (tw : TargetWeights)
    (hb : state.bond = 0)
    (hta : 1/100 < postFeeTotal state r inputs) :
    (simulateYear state r inputs .BUCKET tw).nextState.stock +
        (simulateYear state r inputs .BUCKET tw).nextState.bond +
        (simulateYear state r inputs .BUCKET tw).nextState.cash =
      postFeeTotal state r inputs -
        (simulateYear state r inputs .BUCKET tw).withdrawal := by
  have hpb : postFeeBond state r inputs = 0 := postFeeBond_zero _ _ _ hb
  have htot : postFeeTotal state r inputs =
      postFeeStock state r inputs + postFeeCash state r := by
    rw [postFeeTotal, hpb]
    ring
  have hwd : min state.spend (postFeeTotal state r inputs) ≤
      postFeeStock state r inputs + postFeeCash state r :=
    htot ▸ min_le_right _ _
  simp only [simulateYear.eq_def]
  rw [if_neg (not_le.mpr hta)]
  dsimp only
  rw [bucketStep_total _ _ _ _ _ _ hpb hwd]
  linarith [htot]

/-- Witness for C1's amended theorem at stock 100, cash 0, spend 10,
+10% stock return: the end total is 110 − 10 = 100 with no friction lost. -/
theorem bucket_no_friction_conservation_witness :
    (SimState.bond ⟨100, 0, 0, 10⟩ = 0) ∧
      1/100 < postFeeTotal ⟨100, 0, 0, 10⟩ ⟨1/10, 0, 0⟩ feeFreeInputs ∧
      ((simulateYear ⟨100, 0, 0, 10⟩ ⟨1/10, 0, 0⟩ feeFreeInputs .BUCKET
            ⟨0, 0⟩).nextState.stock +
          (simulateYear ⟨100, 0, 0, 10⟩ ⟨1/10, 0, 0⟩ feeFreeInputs .BUCKET
            ⟨0, 0⟩).nextState.bond +
          (simulateYear ⟨100, 0, 0, 10⟩ ⟨1/10, 0, 0⟩ feeFreeInputs .BUCKET
            ⟨0, 0⟩).nextState.cash =
        postFeeTotal ⟨100, 0, 0, 10⟩ ⟨1/10, 0, 0⟩ feeFreeInputs -
          (simulateYear ⟨100, 0, 0, 10⟩ ⟨1/10, 0, 0⟩ feeFreeInputs .BUCKET
            ⟨0, 0⟩).withdrawal) :=
  ⟨rfl,
    by norm_num [postFeeTotal, postFeeStock, postFeeBond, postFeeCash,
      feeFreeInputs],
    bucket_no_friction_conservation _ _ _ _ rfl
      (by norm_num [postFeeTotal, postFeeStock, postFeeBond, postFeeCash,
        feeFreeInputs])⟩

/-- Claim C2 (counterexample): the Representative-Run Selector
(`findBestFitRun`) is not the rank-based index selection the spec describes.
On ten runs with final balances 10, 20, …, 100 and target curve [100], the
source's least-squares selector picks the run with final balance 100 (id 9),
while "sorted ascending, index floor(10 × 0.10) = 1" picks the run with final
balance 20 (id 1). -/
theorem selector_not_rank_indexed_cex :
    (findBestFitRun runs10 [100] none).id = 9 ∧
      (representativeRunClaimed runs10 (1/10)).id = 1 ∧
      findBestFitRun runs10 [100] none ≠
        representativeRunClaimed runs10 (1/10) := by
  have h1 : (findBestFitRun runs10 [100] none).id = 9 := by
    norm_num [findBestFitRun, candidatesOf, getTerminalStats, toleranceFilter,
      selectBestAux, runScoreOf, runScore, runs10, List.filter, List.findIdx,
      List.findIdx.go, List.getLastD]
  have h2 : (representativeRunClaimed runs10 (1/10)).id = 1 := by
    norm_num [representativeRunClaimed, sortRunsByFinal, insertRunSorted,
      runs10]
  refine ⟨h1, h2, fun hEq => ?_⟩
  have h3 := congrArg SimulationRun.id hEq
  rw [h1, h2] at h3
  exact absurd h3 (by norm_num)

/-- Claim C2 (amended): `findBestFitRun` selects, from its candidate set
(depletion-year matched, or tolerance-widened by final balance, falling back
to all runs), a run of the input list achieving the minimum sum-of-squared
trajectory deviation from the target curve plus ordering penalty — not the
run at a fixed rank of the sorted-by-final-balance list. -/
theorem findBestFitRun_minimizes_score (allRuns : List SimulationRun)
    (targetCurve : List ℚ) (cmp : Option ((ℚ → ℚ → Bool) × List ℚ))
    (h : allRuns ≠ []) :
    findBestFitRun allRuns targetCurve cmp ∈ allRuns ∧
      ∀ r ∈ candidatesOf allRuns targetCurve,
        runScoreOf (findBestFitRun allRuns targetCurve cmp) targetCurve cmp ≤
          runScoreOf r targetCurve cmp := by
  have hne := candidatesOf_ne_nil allRuns targetCurve h
  rcases hcand : candidatesOf allRuns targetCurve with _ | ⟨c, cs⟩
  · exact absurd hcand hne
  · have hred : findBestFitRun allRuns targetCurve cmp =
        selectBestAux targetCurve cmp c
          (some (runScoreOf c targetCurve cmp)) cs := by
      simp only [findBestFitRun, hcand, selectBestAux]
    obtain ⟨m1, m2, m3⟩ := selectBestAux_mem_min targetCurve cmp cs c
      (runScoreOf c targetCurve cmp) rfl
    rw [hred]
    constructor
    · apply candidatesOf_subset allRuns targetCurve
      rw [hcand]
      exact m1
    · intro r hr
      rcases List.mem_cons.mp hr with h' | h'
      · rw [h']
        exact m2
      · exact m3 r h'

/-- Witness for C2's amended theorem on the ten concrete runs. -/
theorem findBestFitRun_minimizes_score_witness :
    runs10 ≠ [] ∧
      (findBestFitRun runs10 [100] none ∈ runs10 ∧
        ∀ r ∈ candidatesOf runs10 [100],
          runScoreOf (findBestFitRun runs10 [100] none) [100] none ≤
            runScoreOf r [100] none) :=
  ⟨by simp [runs10],
    findBestFitRun_minimizes_score runs10 [100] none (by simp [runs10])⟩

/-- Claim C3: audit-replay determinism.  For every request, strategy and
stored returns sequence, the driver's recorded trajectory (with its
clamp-at-zero, which never fires) equals, year for year, the `endTotal` column
of the audit log replayed by `generateAuditLog` from the request's initial
allocation. -/
theorem audit_replay_reproduces_trajectory (inputs : SimulationInputs)
    (strategy : StrategyType) (rs : List AnnualReturn) :
    simTrajectory inputs strategy
        (computeWeights strategy inputs.customStockAllocation)
        (initialState inputs strategy) rs =
      (generateAuditLog inputs strategy rs).map AuditRow.endTotal := by
  rw [generateAuditLog]
  exact simTrajectory_eq_audit inputs strategy _
    (fun h => computeWeights_sum strategy _ h) rs (initialState inputs strategy)
    1 (fun h => initialState_bond_zero inputs strategy h)

/-- Claim C4 (counterexample): with a 200% management fee (which the claim's
`managementFee ≥ 0` allows and the engine never validates), the BUCKET branch
leaves a negative bond bucket: from stock 0, bond 10, cash 100 and zero
returns, the post-fee bond is 10 − 20 = −10 and the bucket branch never
touches it. -/
theorem nonneg_fails_large_fee_cex :
    (simulateYear ⟨0, 10, 100, 0⟩ ⟨0, 0, 0⟩ fee200Inputs .BUCKET
        ⟨6/10, 4/10⟩).nextState.bond = -10 ∧
      (simulateYear ⟨0, 10, 100, 0⟩ ⟨0, 0, 0⟩ fee200Inputs .BUCKET
        ⟨6/10, 4/10⟩).nextState.bond < 0 := by
  have h : (simulateYear ⟨0, 10, 100, 0⟩ ⟨0, 0, 0⟩ fee200Inputs .BUCKET
      ⟨6/10, 4/10⟩).nextState.bond = -10 := by
    rw [simulateYear.eq_def]
    norm_num [postFeeTotal, postFeeStock, postFeeBond, postFeeCash,
      fee200Inputs, bucketStep, bucketTag, min_def]
  exact ⟨h, by rw [h]; norm_num⟩

/-- Claim C4 (amended): for every state with nonnegative buckets, returns
≥ −1 in each component, management fee in [0, 100] (so the fee rate is at
most 1), and target weights in [0, 1], one `simulateYear` call keeps stock,
bond and cash nonnegative for all four strategies. -/
theorem yearTransition_nonneg_bounded_fee (state : SimState)
    (r : AnnualReturn) (inputs : SimulationInputs) (strategy : StrategyType)
    (tw : TargetWeights)
    (hstate : 0 ≤ state.stock ∧ 0 ≤ state.bond ∧ 0 ≤ state.cash)
    (hret : -1 ≤ r.stock ∧ -1 ≤ r.bond ∧ -1 ≤ r.cash)
    (hfee : 0 ≤ inputs.managementFee ∧ inputs.managementFee ≤ 100)
    (htw : 0 ≤ tw.stock ∧ tw.stock ≤ 1 ∧ 0 ≤ tw.bond ∧ tw.bond ≤ 1) :
    0 ≤ (simulateYear state r inputs strategy tw).nextState.stock ∧
      0 ≤ (simulateYear state r inputs strategy tw).nextState.bond ∧
      0 ≤ (simulateYear state r inputs strategy tw).nextState.cash := by
  obtain ⟨hs, hbd, hc⟩ := hstate
  obtain ⟨hr1, hr2, hr3⟩ := hret
  obtain ⟨hf0, hf1⟩ := hfee
  obtain ⟨htw1, _, htw3, _⟩ := htw
  have hgs : 0 ≤ state.stock * (1 + r.stock) := mul_nonneg hs (by linarith)
  have hgb : 0 ≤ state.bond * (1 + r.bond) := mul_nonneg hbd (by linarith)
  have h1q : (0:ℚ) ≤ 1 - inputs.managementFee / 100 := by linarith
  have hps : 0 ≤ postFeeStock state r inputs := by
    simp only [postFeeStock]
    nlinarith [mul_nonneg hgs h1q]
  have hpbnd : 0 ≤ postFeeBond state r inputs := by
    simp only [postFeeBond]
    nlinarith [mul_nonneg hgb h1q]
  have hpc : 0 ≤ postFeeCash state r := mul_nonneg hc (by linarith)
  cases strategy with
  | BUCKET =>
    simp only [simulateYear.eq_def]
    split
    · simp
    · have h := bucketStep_nonneg r.stock (postFeeStock state r inputs)
        (postFeeBond state r inputs) (postFeeCash state r) (2 * state.spend)
        (min state.spend (postFeeTotal state r inputs)) hps hpbnd hpc
      refine ⟨?_, ?_, ?_⟩ <;> dsimp only
      · exact h.1
      · exact h.2.1
      · exact h.2.2
  | CONSERVATIVE =>
    simp only [simulateYear.eq_def]
    split
    · simp
    · have h := fixedStep_nonneg (postFeeTotal state r inputs)
        (min state.spend (postFeeTotal state r inputs)) tw htw1 htw3
      refine ⟨?_, ?_, ?_⟩ <;> dsimp only
      · exact h.1
      · exact h.2.1
      · exact h.2.2
  | AGGRESSIVE =>
    simp only [simulateYear.eq_def]
    split
    · simp
    · have h := fixedStep_nonneg (postFeeTotal state r inputs)
        (min state.spend (postFeeTotal state r inputs)) tw htw1 htw3
      refine ⟨?_, ?_, ?_⟩ <;> dsimp only
      · exact h.1
      · exact h.2.1
      · exact h.2.2
  | CUSTOM =>
    simp only [simulateYear.eq_def]
    split
    · simp
    · have h := fixedStep_nonneg (postFeeTotal state r inputs)
        (min state.spend (postFeeTotal state r inputs)) tw htw1 htw3
      refine ⟨?_, ?_, ?_⟩ <;> dsimp only
      · exact h.1
      · exact h.2.1
      · exact h.2.2

/-- Witness for C4's amended theorem at a benign concrete input. -/
theorem yearTransition_nonneg_bounded_fee_witness :
    ((0:ℚ) ≤ 1 ∧ (0:ℚ) ≤ 1 ∧ (0:ℚ) ≤ 1) ∧
      ((-1:ℚ) ≤ 0 ∧ (-1:ℚ) ≤ 0 ∧ (-1:ℚ) ≤ 0) ∧
      ((0:ℚ) ≤ feeFreeInputs.managementFee ∧
        feeFreeInputs.managementFee ≤ 100) ∧
      ((0:ℚ) ≤ 6/10 ∧ (6/10:ℚ) ≤ 1 ∧ (0:ℚ) ≤ 4/10 ∧ (4/10:ℚ) ≤ 1) ∧
      (0 ≤ (simulateYear ⟨1, 1, 1, 1⟩ ⟨0, 0, 0⟩ feeFreeInputs .CONSERVATIVE
          ⟨6/10, 4/10⟩).nextState.stock ∧
        0 ≤ (simulateYear ⟨1, 1, 1, 1⟩ ⟨0, 0, 0⟩ feeFreeInputs .CONSERVATIVE
          ⟨6/10, 4/10⟩).nextState.bond ∧
        0 ≤ (simulateYear ⟨1, 1, 1, 1⟩ ⟨0, 0, 0⟩ feeFreeInputs .CONSERVATIVE
          ⟨6/10, 4/10⟩).nextState.cash) :=
  ⟨⟨by norm_num, by norm_num, by norm_num⟩,
    ⟨by norm_num, by norm_num, by norm_num⟩,
    ⟨by norm_num [feeFreeInputs], by norm_num [feeFreeInputs]⟩,
    ⟨by norm_num, by norm_num, by norm_num, by norm_num⟩,
    yearTransition_nonneg_bounded_fee ⟨1, 1, 1, 1⟩ ⟨0, 0, 0⟩ feeFreeInputs
      .CONSERVATIVE ⟨6/10, 4/10⟩
      ⟨by norm_num, by norm_num, by norm_num⟩
      ⟨by norm_num, by norm_num, by norm_num⟩
      ⟨by norm_num [feeFreeInputs], by norm_num [feeFreeInputs]⟩
      ⟨by norm_num, by norm_num, by norm_num, by norm_num⟩⟩

/-- Claim C5 (counterexample): `runSimulation` performs no input validation.
A request with `timeHorizon = 0` — invalid under the spec's rule — is not
rejected: the engine still produces a result (here its percentile curve, with
just the synthetic start row). -/
theorem no_input_validation_cex :
    claimValidInputs horizonZeroInputs = false ∧
      runSimulationModel horizonZeroInputs .CONSERVATIVE zeroOracle =
        some (runSimulationBody horizonZeroInputs .CONSERVATIVE zeroOracle) ∧
      (runSimulationBody horizonZeroInputs .CONSERVATIVE
        zeroOracle).data.length = 1 := by
  refine ⟨by norm_num [claimValidInputs, horizonZeroInputs], ?_, ?_⟩
  · exact runSimulationModel_eq_some _ _ _ (by norm_num [horizonZeroInputs])
  · rw [runSimulationBody_data_length]
    norm_num [horizonZeroInputs]

/-- Claim C5 (amended): `runSimulation` has no validation or rejection path.
A result fails to be produced exactly when `timeHorizon < 0`, and then only
because `Array(timeHorizon)` at the trajectory-buffer allocation (line 393)
throws an uncaught `RangeError` — an accidental crash, not the spec's orderly
invalid-input rejection.  Every request with `timeHorizon ≥ 0` — including
`timeHorizon = 0`, negative amounts, and `customStockAllocation` outside
[0,100] — runs the full simulation and produces a result whose percentile
curve has `timeHorizon + 1` rows. -/
theorem runSimulation_result_iff_nonneg_horizon (inputs : SimulationInputs)
    (strategy : StrategyType) (oracle : ℕ → ℕ → AnnualReturn) :
    (runSimulationModel inputs strategy oracle =
        some (runSimulationBody inputs strategy oracle) ↔
      0 ≤ inputs.timeHorizon) ∧
      (runSimulationModel inputs strategy oracle = none ↔
        inputs.timeHorizon < 0) ∧
      (runSimulationBody inputs strategy oracle).data.length =
        inputs.timeHorizon.toNat + 1 := by
  refine ⟨?_, ?_, runSimulationBody_data_length _ _ _⟩ <;>
  · simp only [runSimulationModel]
    by_cases h : inputs.timeHorizon < 0
    · simp [if_pos h, h, not_le.mpr h]
    · simp [if_neg h, h, not_lt.mp h]

/-- Claim C6 (counterexample): the log-normal derivation in
`generateAnnualReturns` does not clamp the `1 + mean` term.  At mean = −1 the
source's term is 0 (so the log argument `term²/φ` is 0, not strictly
positive), whereas the spec's clamped term is 1/10000. -/
theorem logParam_term_unclamped_cex :
    logParamTerm (-1) = 0 ∧
      logParamTermClaimed (-1) = 1/10000 ∧
      logParamTerm (-1) ≠ logParamTermClaimed (-1) ∧
      logParamTerm (-1) * logParamTerm (-1) = 0 := by
  norm_num [logParamTerm, logParamTermClaimed]

/-- Claim C6 (amended): no clamp exists; the source's `term = 1 + mean` gives
strictly positive sqrt/log arguments (term², φ² = σ² + term², and hence the
ratios fed to `ln`) exactly when mean ≠ −1 — including means below −1, where
the unclamped term is negative but its square is still positive. -/
theorem logParam_positive_away_from_neg_one (m sd : ℚ) (h : m ≠ -1) :
    0 < logParamTerm m * logParamTerm m ∧
      logParamTerm m * logParamTerm m ≤ logParamPhiSq m sd ∧
      0 < logParamPhiSq m sd := by
  have ht : logParamTerm m ≠ 0 := by
    rw [logParamTerm]
    intro hc
    exact h (by linarith)
  have h1 : 0 < logParamTerm m * logParamTerm m := mul_self_pos.mpr ht
  refine ⟨h1, ?_, ?_⟩
  · simp only [logParamPhiSq]
    nlinarith [mul_self_nonneg sd]
  · simp only [logParamPhiSq]
    nlinarith [mul_self_nonneg sd, h1]

/-- Witness for C6's amended theorem at mean −2 (below −100%), stddev 17%. -/
theorem logParam_positive_away_from_neg_one_witness :
    ((-2 : ℚ) ≠ -1) ∧
      (0 < logParamTerm (-2) * logParamTerm (-2) ∧
        logParamTerm (-2) * logParamTerm (-2) ≤ logParamPhiSq (-2) (17/100) ∧
        0 < logParamPhiSq (-2) (17/100)) :=
  ⟨by norm_num, logParam_positive_away_from_neg_one (-2) (17/100) (by norm_num)⟩

/-- Claim C7: the all-zero portfolio state is absorbing.  With a nonnegative
spend target, one `simulateYear` step from the zero state returns the zero
state with zero withdrawal (for every return triple, every request and every
strategy), and iterating over any returns sequence stays at the zero state. -/
theorem depleted_state_absorbing (spend : ℚ) (hsp : 0 ≤ spend)
    (r : AnnualReturn) (inputs : SimulationInputs) (strategy : StrategyType)
    (tw : TargetWeights) (rs : List AnnualReturn) :
    (simulateYear ⟨0, 0, 0, spend⟩ r inputs strategy tw).nextState =
        ⟨0, 0, 0, spend⟩ ∧
      (simulateYear ⟨0, 0, 0, spend⟩ r inputs strategy tw).withdrawal = 0 ∧
      simulateYears inputs strategy tw ⟨0, 0, 0, spend⟩ rs =
        ⟨0, 0, 0, spend⟩ := by
  refine ⟨(zero_state_step spend r inputs strategy tw).1, ?_,
    simulateYears_zero spend inputs strategy tw rs⟩
  rw [(zero_state_step spend r inputs strategy tw).2]
  exact min_eq_right hsp

/-- Witness for C7 at spend 1, a mixed return triple and a two-year zero
sequence. -/
theorem depleted_state_absorbing_witness :
    (0 : ℚ) ≤ 1 ∧
      ((simulateYear ⟨0, 0, 0, 1⟩ ⟨1/2, -1/2, 0⟩ feeFreeInputs .CONSERVATIVE
          ⟨6/10, 4/10⟩).nextState = ⟨0, 0, 0, 1⟩ ∧
        (simulateYear ⟨0, 0, 0, 1⟩ ⟨1/2, -1/2, 0⟩ feeFreeInputs .CONSERVATIVE
          ⟨6/10, 4/10⟩).withdrawal = 0 ∧
        simulateYears feeFreeInputs .CONSERVATIVE ⟨6/10, 4/10⟩ ⟨0, 0, 0, 1⟩
          [⟨1, 1, 1⟩, ⟨-1/2, 0, 0⟩] = ⟨0, 0, 0, 1⟩) :=
  ⟨by norm_num,
    depleted_state_absorbing 1 (by norm_num) ⟨1/2, -1/2, 0⟩ feeFreeInputs
      .CONSERVATIVE ⟨6/10, 4/10⟩ [⟨1, 1, 1⟩, ⟨-1/2, 0, 0⟩]⟩

/-- Claim C8: Scenario A in exact arithmetic.  CONSERVATIVE, one year,
initialInvestments 100000, zero spend/inflation/fee, forced returns
stock 8.5% and bond 4%: the replayed year's end total is exactly
106646.65 = 10664665/100 (60000×1.085 + 40000×1.04 = 106700, minus the
0.05% rebalancing drag 53.35). -/
theorem scenarioA_endTotal :
    (generateAuditLog scenarioAInputs .CONSERVATIVE
        [⟨85/1000, 4/100, 0⟩]).map AuditRow.endTotal = [10664665/100] := by
  rw [generateAuditLog]
  rw [initialState.eq_def]
  norm_num [auditRows, computeWeights, scenarioAInputs]
  rw [simulateYear.eq_def]
  norm_num [postFeeTotal, postFeeStock, postFeeBond, postFeeCash, fixedStep,
    scenarioAInputs, min_def]

/-- Claim C9: for every request with a positive horizon, `runSimulation`
produces a result whose percentile curve has `timeHorizon + 1` rows and whose
index-0 row carries the starting total `initialCash + initialInvestments` on
all three bands. -/
theorem percentileCurve_length_and_start (inputs : SimulationInputs)
    (strategy : StrategyType) (oracle : ℕ → ℕ → AnnualReturn)
    (h : 0 < inputs.timeHorizon) :
    runSimulationModel inputs strategy oracle =
        some (runSimulationBody inputs strategy oracle) ∧
      (runSimulationBody inputs strategy oracle).data.length =
        inputs.timeHorizon.toNat + 1 ∧
      ((runSimulationBody inputs strategy oracle).data.getD 0
          ⟨0, 0, 0, 0⟩).average =
        inputs.initialCash + inputs.initialInvestments ∧
      ((runSimulationBody inputs strategy oracle).data.getD 0
          ⟨0, 0, 0, 0⟩).belowAverage =
        inputs.initialCash + inputs.initialInvestments ∧
      ((runSimulationBody inputs strategy oracle).data.getD 0
          ⟨0, 0, 0, 0⟩).downturn =
        inputs.initialCash + inputs.initialInvestments := by
  refine ⟨runSimulationModel_eq_some _ _ _ h.le,
    runSimulationBody_data_length _ _ _, ?_, ?_, ?_⟩ <;>
    simp [runSimulationBody, simChartData]

/-- Witness for C9 on the 1-year Scenario A request under BUCKET. -/
theorem percentileCurve_length_and_start_witness :
    (0 : ℤ) < scenarioAInputs.timeHorizon ∧
      (runSimulationModel scenarioAInputs .BUCKET zeroOracle =
          some (runSimulationBody scenarioAInputs .BUCKET zeroOracle) ∧
        (runSimulationBody scenarioAInputs .BUCKET zeroOracle).data.length =
          scenarioAInputs.timeHorizon.toNat + 1 ∧
        ((runSimulationBody scenarioAInputs .BUCKET zeroOracle).data.getD 0
            ⟨0, 0, 0, 0⟩).average =
          scenarioAInputs.initialCash + scenarioAInputs.initialInvestments ∧
        ((runSimulationBody scenarioAInputs .BUCKET zeroOracle).data.getD 0
            ⟨0, 0, 0, 0⟩).belowAverage =
          scenarioAInputs.initialCash + scenarioAInputs.initialInvestments ∧
        ((runSimulationBody scenarioAInputs .BUCKET zeroOracle).data.getD 0
            ⟨0, 0, 0, 0⟩).downturn =
          scenarioAInputs.initialCash + scenarioAInputs.initialInvestments) :=
  ⟨by norm_num [scenarioAInputs],
    percentileCurve_length_and_start scenarioAInputs .BUCKET zeroOracle
      (by norm_num [scenarioAInputs])⟩

/-- Claim C10 (counterexample): in the depletion branch the reported
withdrawal is `min(spend, totalAvailable)`, so it is 0 whenever spend is 0
even though `totalAvailable` (here 0.005 ∈ (0, 0.01]) is nonzero — refuting
"withdrawal is exactly 0 only when totalAvailable is exactly 0". -/
theorem depletion_withdrawal_zero_spend_cex :
    postFeeTotal ⟨0, 0, 1/200, 0⟩ ⟨0, 0, 0⟩ feeFreeInputs = 1/200 ∧
      (0 : ℚ) < 1/200 ∧ (1/200 : ℚ) ≤ 1/100 ∧
      (simulateYear ⟨0, 0, 1/200, 0⟩ ⟨0, 0, 0⟩ feeFreeInputs .BUCKET
        ⟨0, 0⟩).withdrawal = 0 ∧
      (1/200 : ℚ) ≠ 0 := by
  refine ⟨?_, by norm_num, by norm_num, ?_, by norm_num⟩
  · norm_num [postFeeTotal, postFeeStock, postFeeBond, postFeeCash,
      feeFreeInputs]
  · rw [simulateYear.eq_def]
    norm_num [postFeeTotal, postFeeStock, postFeeBond, postFeeCash,
      feeFreeInputs, min_def]

/-- Claim C10 (amended): in the depletion branch (0 < totalAvailable ≤ 0.01,
nonnegative spend) the outcome reports `withdrawal = min(spend,
totalAvailable)` computed before the buckets are zeroed while the next state
is all-zero; the withdrawal is 0 exactly when spend is 0, and is strictly
positive (up to 0.01) whenever spend is. -/
theorem depletion_branch_withdrawal (state : SimState) (r : AnnualReturn)
    (inputs : SimulationInputs) (strategy : StrategyType) (tw : TargetWeights)
    (hsp : 0 ≤ state.spend)
    (h0 : 0 < postFeeTotal state r inputs)
    (h1 : postFeeTotal state r inputs ≤ 1/100) :
    (simulateYear state r inputs strategy tw).withdrawal =
        min state.spend (postFeeTotal state r inputs) ∧
      (simulateYear state r inputs strategy tw).nextState =
        ⟨0, 0, 0, state.spend⟩ ∧
      ((simulateYear state r inputs strategy tw).withdrawal = 0 ↔
        state.spend = 0) ∧
      (0 < state.spend →
        0 < (simulateYear state r inputs strategy tw).withdrawal) := by
  simp only [simulateYear.eq_def]
  rw [if_pos h1]
  dsimp only
  refine ⟨rfl, rfl, ?_, ?_⟩
  · constructor
    · intro hmin
      by_contra hne
      have hpos : 0 < state.spend := lt_of_le_of_ne hsp (Ne.symm hne)
      have hlt := lt_min hpos h0
      rw [hmin] at hlt
      exact absurd hlt (lt_irrefl 0)
    · intro hz
      rw [hz]
      exact min_eq_left h0.le
  · intro hpos
    exact lt_min hpos h0

/-- Witness for C10's amended theorem at cash 0.005 and spend 5. -/
theorem depletion_branch_withdrawal_witness :
    (0 : ℚ) ≤ SimState.spend ⟨0, 0, 1/200, 5⟩ ∧
      0 < postFeeTotal ⟨0, 0, 1/200, 5⟩ ⟨0, 0, 0⟩ feeFreeInputs ∧
      postFeeTotal ⟨0, 0, 1/200, 5⟩ ⟨0, 0, 0⟩ feeFreeInputs ≤ 1/100 ∧
      ((simulateYear ⟨0, 0, 1/200, 5⟩ ⟨0, 0, 0⟩ feeFreeInputs .BUCKET
          ⟨0, 0⟩).withdrawal =
        min (SimState.spend ⟨0, 0, 1/200, 5⟩)
          (postFeeTotal ⟨0, 0, 1/200, 5⟩ ⟨0, 0, 0⟩ feeFreeInputs) ∧
        (simulateYear ⟨0, 0, 1/200, 5⟩ ⟨0, 0, 0⟩ feeFreeInputs .BUCKET
          ⟨0, 0⟩).nextState = ⟨0, 0, 0, 5⟩ ∧
        ((simulateYear ⟨0, 0, 1/200, 5⟩ ⟨0, 0, 0⟩ feeFreeInputs .BUCKET
            ⟨0, 0⟩).withdrawal = 0 ↔ SimState.spend ⟨0, 0, 1/200, 5⟩ = 0) ∧
        (0 < SimState.spend ⟨0, 0, 1/200, 5⟩ →
          0 < (simulateYear ⟨0, 0, 1/200, 5⟩ ⟨0, 0, 0⟩ feeFreeInputs .BUCKET
            ⟨0, 0⟩).withdrawal)) :=
  ⟨by norm_num,
    by norm_num [postFeeTotal, postFeeStock, postFeeBond, postFeeCash,
      feeFreeInputs],
    by norm_num [postFeeTotal, postFeeStock, postFeeBond, postFeeCash,
      feeFreeInputs],
    depletion_branch_withdrawal ⟨0, 0, 1/200, 5⟩ ⟨0, 0, 0⟩ feeFreeInputs
      .BUCKET ⟨0, 0⟩ (by norm_num)
      (by norm_num [postFeeTotal, postFeeStock, postFeeBond, postFeeCash,
        feeFreeInputs])
      (by norm_num [postFeeTotal, postFeeStock, postFeeBond, postFeeCash,
        feeFreeInputs])⟩

end RetirementSim
